/-
Verification of the egile-agent-investment dual-transport invocation layer
and report-orchestration pipeline (src/egile_agent_investment/plugin.py and
src/egile_agent_investment/mcp_client.py).

Strings are modelled as `List Char`.  The source file on disk is doubly
UTF-8 encoded, so the Python interpreter sees mojibake character sequences
(for example the euro sign of the stock patterns is the three characters
U+00E2 U+201A U+00AC); the embedding reproduces exactly those sequences.

Python `float` values that feed fixed-precision formatting are modelled as
rationals; `%.2f`-style formatting is modelled by round-half-even on the
rational value (exact for the decimal-valued inputs exercised here).
-/

import Mathlib

/-- Strings as character lists. -/
abbrev Str := List Char

/-! ## Character classes of the stock patterns

Python `\s`, `\d` are modelled by their ASCII parts (the only characters
the task strings and patterns involve). -/

def isSpaceChar (c : Char) : Bool :=
  c = ' ' || c = '\t' || c = '\n' || c = '\r' || c = '\x0b' || c = '\x0c'

def isAsciiAlpha (c : Char) : Bool :=
  ('A' ≤ c && c ≤ 'Z') || ('a' ≤ c && c ≤ 'z')

/-- The class `[A-Za-z\s]` of the company-name group. -/
def isAlphaSpace (c : Char) : Bool := isAsciiAlpha c || isSpaceChar c

/-- The class `[A-Z]` of the ticker group. -/
def isUpperAZ (c : Char) : Bool := 'A' ≤ c && c ≤ 'Z'

/-- The class `[\d.]` of the price amounts. -/
def isDigitDot (c : Char) : Bool := c.isDigit || c = '.'

/-! ## A backtracking matcher for the two stock patterns

Both patterns of `execute_task_direct` are concatenations of literal
characters, one optional literal (`shares?`) and greedy one-or-more
character classes (some of them capture groups), so a pattern is embedded
as a list of such items.  `matchItems` performs Python's leftmost-greedy
backtracking search anchored at the start of the input; `findall` scans
left to right collecting non-overlapping matches, as `re.findall` does.
The fuel argument only bounds the recursion over the item list (one unit
per item), so `items.length + 1` units always suffice. -/

inductive Item where
  | lit : Char → Item
  | optLit : Char → Item
  | many1 : (Char → Bool) → Bool → Item

/-- Candidate lengths `[n, n-1, ..., 1]` for a greedy one-or-more class. -/
def tryLens (n : Nat) : List Nat := (List.range n).map (fun i => n - i)

def matchItems : Nat → List Item → Str → Option (Str × List Str)
  | 0, _, _ => none
  | _ + 1, [], s => some (s, [])
  | fuel + 1, Item.lit c :: rest, s =>
    match s with
    | [] => none
    | x :: t => if x = c then matchItems fuel rest t else none
  | fuel + 1, Item.optLit c :: rest, s =>
    match s with
    | [] => matchItems fuel rest []
    | x :: t =>
      if x = c then
        match matchItems fuel rest t with
        | some res => some res
        | none => matchItems fuel rest (x :: t)
      else matchItems fuel rest (x :: t)
  | fuel + 1, Item.many1 p cap :: rest, s =>
    (tryLens (s.takeWhile p).length).findSome? fun k =>
      match matchItems fuel rest (s.drop k) with
      | some (r, caps) => some (r, if cap then s.take k :: caps else caps)
      | none => none

/-- Run a pattern anchored at the start of `s` with sufficient fuel. -/
def runMatch (items : List Item) (s : Str) : Option (Str × List Str) :=
  matchItems (items.length + 1) items s

def findallAux : Nat → List Item → Str → List (List Str)
  | 0, _, _ => []
  | fuel + 1, items, s =>
    match runMatch items s with
    | some (r, caps) =>
      caps ::
        (if r.length < s.length then findallAux fuel items r
         else findallAux fuel items (s.drop 1))
    | none =>
      match s with
      | [] => []
      | _ :: t => findallAux fuel items t

/-- Model of `re.findall(pattern, s)`: the list of group tuples of the
non-overlapping matches, scanning left to right. -/
def findall (items : List Item) (s : Str) : List (List Str) :=
  findallAux (s.length + 1) items s

def litsOf (s : Str) : List Item := s.map Item.lit

/-- The euro sign as the Python interpreter sees it in the doubly encoded
source: the three characters U+00E2 U+201A U+00AC. -/
def euroSeq : Str := "â‚¬".data

/-- Primary pattern of `execute_task_direct` (plugin.py line 429):
`(\d+)\s+([A-Za-z\s]+)\s+\(([A-Z]+)\)\s+shares?\s+@\s+€[\d.]+\s+\(\$([\d.]+)\)`. -/
def stock_pattern : List Item :=
  [Item.many1 Char.isDigit true, Item.many1 isSpaceChar false,
   Item.many1 isAlphaSpace true, Item.many1 isSpaceChar false, Item.lit '(',
   Item.many1 isUpperAZ true, Item.lit ')', Item.many1 isSpaceChar false] ++
  litsOf "share".data ++ [Item.optLit 's'] ++
  [Item.many1 isSpaceChar false, Item.lit '@', Item.many1 isSpaceChar false] ++
  litsOf euroSeq ++
  [Item.many1 isDigitDot false, Item.many1 isSpaceChar false, Item.lit '(',
   Item.lit '$', Item.many1 isDigitDot true, Item.lit ')']

/-- Fallback EUR-only pattern of `execute_task_direct` (plugin.py line 434):
`(\d+)\s+([A-Za-z\s]+)\s+\(([A-Z]+)\)\s+shares?\s+@\s+€([\d.]+)`. -/
def stock_pattern_eur : List Item :=
  [Item.many1 Char.isDigit true, Item.many1 isSpaceChar false,
   Item.many1 isAlphaSpace true, Item.many1 isSpaceChar false, Item.lit '(',
   Item.many1 isUpperAZ true, Item.lit ')', Item.many1 isSpaceChar false] ++
  litsOf "share".data ++ [Item.optLit 's'] ++
  [Item.many1 isSpaceChar false, Item.lit '@', Item.many1 isSpaceChar false] ++
  litsOf euroSeq ++
  [Item.many1 isDigitDot true]

/-- Stage 1 of `execute_task_direct` (plugin.py lines 428-436): the primary
pattern is applied first, and the fallback pattern is applied exactly when
the primary pattern yields zero matches. -/
def extractMatches (task : Str) : List (List Str) :=
  let ms := findall stock_pattern task
  if ms.isEmpty then findall stock_pattern_eur task else ms

/-! ## Numeric parsing and fixed-precision formatting

`decVal` models Python `float()` on the strings the two patterns can
capture (digits and dots).  The `%.2f`-family formatters model Python's
fixed-precision formatting by round-half-even on the rational value. -/

/-- Value of a digit string (most significant first). -/
def digitsToNat (s : Str) : Nat :=
  s.foldl (fun acc c => acc * 10 + (c.toNat - 48)) 0

/-- Model of Python `float()` restricted to `[\d.]*` inputs: at most one
dot, at least one digit; `"1."` and `".5"` are accepted, `""`, `"."` and
`"1.2.3"` raise. -/
def decVal (s : Str) : Option ℚ :=
  if s.all isDigitDot then
    match s.splitOn '.' with
    | [a] => if a.isEmpty then none else some (digitsToNat a)
    | [a, b] =>
      if a.isEmpty && b.isEmpty then none
      else some ((digitsToNat a : ℚ) + (digitsToNat b : ℚ) / (10 : ℚ) ^ b.length)
    | _ => none
  else none

/-- Round a nonnegative rational to the nearest integer, ties to even. -/
def roundHalfEvenNN (x : ℚ) : Nat :=
  let f : ℤ := ⌊x⌋
  let r : ℚ := x - (f : ℚ)
  (if 1 / 2 < r then f + 1 else if r < 1 / 2 then f
   else if f % 2 = 0 then f else f + 1).toNat

def natDigits (n : Nat) : Str := (toString n).data

def pad2 (m : Nat) : Str := if m < 10 then '0' :: natDigits m else natDigits m

/-- `f"{q:.2f}"`. -/
def fmt2 (q : ℚ) : Str :=
  let n := roundHalfEvenNN (|q| * 100)
  (if q < 0 then "-".data else []) ++ natDigits (n / 100) ++ ".".data ++ pad2 (n % 100)

/-- Insert a comma before every group of three digits, input reversed. -/
def group3Rev : Str → Nat → Str
  | [], _ => []
  | c :: rest, 3 => ',' :: c :: group3Rev rest 1
  | c :: rest, k => c :: group3Rev rest (k + 1)

def commaDigits (n : Nat) : Str := (group3Rev (natDigits n).reverse 0).reverse

/-- `f"{q:,.2f}"`. -/
def fmtComma2 (q : ℚ) : Str :=
  let n := roundHalfEvenNN (|q| * 100)
  (if q < 0 then "-".data else []) ++ commaDigits (n / 100) ++ ".".data ++ pad2 (n % 100)

/-- `f"{q:+.2f}"`. -/
def fmtPlus2 (q : ℚ) : Str :=
  let n := roundHalfEvenNN (|q| * 100)
  (if q < 0 then "-".data else "+".data) ++ natDigits (n / 100) ++ ".".data ++ pad2 (n % 100)

/-- `f"{q:,.0f}"`. -/
def fmtComma0 (q : ℚ) : Str :=
  (if q < 0 then "-".data else []) ++ commaDigits (roundHalfEvenNN |q|)

/-- Python `str.upper()`, ASCII part. -/
def upperStr (s : Str) : Str := s.map Char.toUpper

/-- Concatenation of report fragments (`"".join` / `+=` accumulation). -/
def concatAll (L : List Str) : Str := L.foldr (· ++ ·) []

/-! ## The mojibake decorations as the interpreter sees them -/

def emojiChart : Str := "ðŸ“Š".data
def emojiTrend : Str := "ðŸ“ˆ".data
def emojiDart : Str := "ðŸŽ¯".data
def emojiBulb : Str := "ðŸ’¡".data
def emojiWarn : Str := "âš ï¸".data
def emojiCheck : Str := "âœ…".data
def bullet : Str := "â€¢".data

/-! ## Structured operation results consumed by the formatters

Fields that the source interpolates with plain `str()` (share counts,
scores, holding counts) are carried in already-rendered form (`_repr`
fields); numeric fields formatted with `:.2f`-style specifiers are
rationals. -/

structure Holding where
  ticker : Str
  company_name : Str
  shares_repr : Str
  purchase_price : ℚ
  current_price : ℚ
  current_value : ℚ
  profit_loss : ℚ
  profit_loss_pct : ℚ
  purchase_value : ℚ
deriving DecidableEq

structure AnalysisResult where
  ticker : Str
  company_name : Str
  sector : Str
  industry : Str
  current_price : ℚ
  price_52w_high : ℚ
  price_52w_low : ℚ
  change_1m_pct : ℚ
  change_3m_pct : ℚ
  market_cap : ℚ
  pe : Option ℚ
  forward_pe : Option ℚ
  peg : Option ℚ
  price_to_book : Option ℚ
  dividend_yield : ℚ
  moving_avg_50d : Option ℚ
  moving_avg_200d : Option ℚ
  volatility : ℚ
  beta : Option ℚ
  analyst_recommendation : Str
  target_price : Option ℚ
deriving DecidableEq

structure SellResult where
  ticker : Str
  recommendation : Str
  sell_score_repr : Str
  reasons : List Str
deriving DecidableEq

structure Opportunity where
  ticker : Str
  company_name : Str
  sector : Str
  current_price : ℚ
  buy_score_repr : Str
  reasons : List Str
deriving DecidableEq

inductive PortfolioReport where
  | empty (message : Str)
  | full (holdings_count_repr : Str)
      (total_purchase_value total_current_value total_profit_loss total_profit_loss_pct : ℚ)
      (sell_recommendations : List SellResult)
deriving DecidableEq

/-! ## ResultFormatter: one formatting function per operation kind -/

def optFmt2 : Option ℚ → Str
  | none => "N/A".data
  | some v => fmt2 v

def optDollarFmt2 : Option ℚ → Str
  | none => "N/A".data
  | some v => "$".data ++ fmt2 v

/-- One holding's block of `_get_portfolio` (plugin.py lines 146-151). -/
def holdingBlock (h : Holding) : Str :=
  "**".data ++ h.ticker ++ "** - ".data ++ h.company_name ++ "\n".data ++
  "  ".data ++ bullet ++ " Shares: ".data ++ h.shares_repr ++ "\n".data ++
  "  ".data ++ bullet ++ " Purchase Price: $".data ++ fmt2 h.purchase_price ++ "\n".data ++
  "  ".data ++ bullet ++ " Current Price: $".data ++ fmt2 h.current_price ++ "\n".data ++
  "  ".data ++ bullet ++ " Current Value: $".data ++ fmtComma2 h.current_value ++ "\n".data ++
  "  ".data ++ bullet ++ " Profit/Loss: $".data ++ fmtComma2 h.profit_loss ++
    " (".data ++ fmtPlus2 h.profit_loss_pct ++ "%)\n\n".data

def portfolio_total_value (hs : List Holding) : ℚ := (hs.map Holding.current_value).sum

def portfolio_total_cost (hs : List Holding) : ℚ := (hs.map Holding.purchase_value).sum

/-- The guarded profit/loss percentage of `_get_portfolio` (plugin.py line
156) and `_format_portfolio_as_markdown` (line 293):
`(total_pl / total_cost * 100) if total_cost > 0 else 0`. -/
def total_pl_pct (total_pl total_cost : ℚ) : ℚ :=
  if total_cost > 0 then total_pl / total_cost * 100 else 0

/-- Non-empty branch of `_get_portfolio` (plugin.py lines 141-160). -/
def formatPortfolio (hs : List Holding) : Str :=
  let tv := portfolio_total_value hs
  let tc := portfolio_total_cost hs
  let tpl := tv - tc
  emojiChart ++ " **Current Portfolio**\n\n".data ++
  concatAll (hs.map holdingBlock) ++
  "**Total Portfolio Value:** $".data ++ fmtComma2 tv ++ "\n".data ++
  "**Total Profit/Loss:** $".data ++ fmtComma2 tpl ++
    " (".data ++ fmtPlus2 (total_pl_pct tpl tc) ++ "%)".data

/-- The lines of `_analyze_stock` (plugin.py lines 166-199), one segment
per `+=` statement of the source. -/
def analysisSegs (r : AnalysisResult) : List Str :=
  [emojiTrend ++ " **Analysis: ".data ++ r.ticker ++ " - ".data ++ r.company_name ++ "**\n\n".data,
   "**Sector:** ".data ++ r.sector ++ " | **Industry:** ".data ++ r.industry ++ "\n\n".data,
   "**Price Information:**\n".data,
   "  ".data ++ bullet ++ " Current Price: $".data ++ fmt2 r.current_price ++ "\n".data,
   "  ".data ++ bullet ++ " 52-Week High: $".data ++ fmt2 r.price_52w_high ++ "\n".data,
   "  ".data ++ bullet ++ " 52-Week Low: $".data ++ fmt2 r.price_52w_low ++ "\n".data,
   "  ".data ++ bullet ++ " 1-Month Change: ".data ++ fmtPlus2 r.change_1m_pct ++ "%\n".data,
   "  ".data ++ bullet ++ " 3-Month Change: ".data ++ fmtPlus2 r.change_3m_pct ++ "%\n\n".data,
   "**Valuation Metrics:**\n".data,
   "  ".data ++ bullet ++ " Market Cap: $".data ++ fmtComma0 r.market_cap ++ "\n".data,
   "  ".data ++ bullet ++ " P/E Ratio: ".data ++ optFmt2 r.pe ++ "\n".data,
   "  ".data ++ bullet ++ " Forward P/E: ".data ++ optFmt2 r.forward_pe ++ "\n".data,
   "  ".data ++ bullet ++ " PEG Ratio: ".data ++ optFmt2 r.peg ++ "\n".data,
   "  ".data ++ bullet ++ " Price/Book: ".data ++ optFmt2 r.price_to_book ++ "\n".data,
   "  ".data ++ bullet ++ " Dividend Yield: ".data ++ fmt2 r.dividend_yield ++ "%\n\n".data,
   "**Technical Indicators:**\n".data,
   "  ".data ++ bullet ++ " 50-Day MA: ".data ++ optDollarFmt2 r.moving_avg_50d ++ "\n".data,
   "  ".data ++ bullet ++ " 200-Day MA: ".data ++ optDollarFmt2 r.moving_avg_200d ++ "\n".data,
   "  ".data ++ bullet ++ " Volatility: ".data ++ fmt2 r.volatility ++ "%\n".data,
   "  ".data ++ bullet ++ " Beta: ".data ++ optFmt2 r.beta ++ "\n\n".data,
   "**Analyst Data:**\n".data,
   "  ".data ++ bullet ++ " Recommendation: ".data ++ upperStr r.analyst_recommendation ++ "\n".data,
   "  ".data ++ bullet ++ " Target Price: ".data ++ optDollarFmt2 r.target_price ++ "\n".data]

/-- Output of `_analyze_stock` for a service result (plugin.py 162-201). -/
def formatAnalysis (r : AnalysisResult) : Str := concatAll (analysisSegs r)

/-- Output of `_should_sell` (plugin.py lines 203-214). -/
def formatSell (r : SellResult) : Str :=
  emojiDart ++ " **Sell Analysis: ".data ++ r.ticker ++ "**\n\n".data ++
  "**Recommendation: ".data ++ r.recommendation ++ "**\n".data ++
  "**Sell Score: ".data ++ r.sell_score_repr ++ "/10**\n\n".data ++
  "**Analysis:**\n".data ++
  concatAll (r.reasons.map fun reason => "  ".data ++ bullet ++ " ".data ++ reason ++ "\n".data)

/-- One numbered block of `_find_buy_opportunities` (plugin.py 234-241). -/
def oppBlock (i : Nat) (opp : Opportunity) : Str :=
  "**".data ++ natDigits i ++ ". ".data ++ opp.ticker ++ "** - ".data ++ opp.company_name ++ "\n".data ++
  "   Sector: ".data ++ opp.sector ++ " | Price: $".data ++ fmt2 opp.current_price ++ "\n".data ++
  "   Buy Score: ".data ++ opp.buy_score_repr ++ "/10\n".data ++
  "   **Reasons:**\n".data ++
  concatAll (opp.reasons.map fun reason => "     ".data ++ bullet ++ " ".data ++ reason ++ "\n".data) ++
  "\n".data

/-- Output of `_find_buy_opportunities` (plugin.py lines 216-243). -/
def formatBuyOpps (opps : List Opportunity) : Str :=
  if opps.isEmpty then "No buy opportunities found matching your criteria.".data
  else
    emojiBulb ++ " **Buy Opportunities** (Found ".data ++ natDigits opps.length ++ " stocks)\n\n".data ++
    concatAll (opps.enum.map fun ia => oppBlock (ia.1 + 1) ia.2)

/-- One recommendation block of `_generate_portfolio_report` (261-266). -/
def reportSellRecBlock (rec : SellResult) : Str :=
  "**".data ++ rec.ticker ++ "** - ".data ++ rec.recommendation ++ "\n".data ++
  "  Sell Score: ".data ++ rec.sell_score_repr ++ "/10\n".data ++
  concatAll (rec.reasons.map fun reason => "    ".data ++ bullet ++ " ".data ++ reason ++ "\n".data) ++
  "\n".data

/-- Output of `_generate_portfolio_report` (plugin.py lines 245-270). -/
def formatReport : PortfolioReport → Str
  | .empty message => message
  | .full cnt tpv tcv tpl tplpct recs =>
    emojiChart ++ " **Portfolio Report**\n\n".data ++
    "**Summary:**\n".data ++
    "  ".data ++ bullet ++ " Total Holdings: ".data ++ cnt ++ "\n".data ++
    "  ".data ++ bullet ++ " Total Investment: $".data ++ fmtComma2 tpv ++ "\n".data ++
    "  ".data ++ bullet ++ " Current Value: $".data ++ fmtComma2 tcv ++ "\n".data ++
    "  ".data ++ bullet ++ " Total P/L: $".data ++ fmtComma2 tpl ++
      " (".data ++ fmtPlus2 tplpct ++ "%)\n\n".data ++
    (if recs.isEmpty then emojiCheck ++ " No immediate sell recommendations.\n".data
     else
       "**".data ++ emojiWarn ++ " Sell Recommendations (".data ++ natDigits recs.length ++
         "):**\n\n".data ++ concatAll (recs.map reportSellRecBlock))

/-! ## ServiceAdapter: the in-process Analysis Service seen by the plugin

The collaborator service is outside the repository; each operation is an
oracle giving either its structured result or the raised exception's
message.  The oracle is fixed for one orchestration call, which is the
granularity every claim below needs. -/

structure Services where
  add_to_portfolio : Str → ℚ → ℚ → Except Str Unit
  get_portfolio : Except Str (List Holding)
  analyze_stock : Str → Except Str AnalysisResult
  should_sell : Str → Except Str SellResult
  find_buy_opportunities : Except Str (List Opportunity)
  generate_portfolio_report : Except Str PortfolioReport

/-- `_get_portfolio` (plugin.py lines 135-160): "Portfolio is empty." for a
falsy result, the formatted portfolio otherwise; service errors propagate. -/
def plugin_get_portfolio (svc : Services) : Except Str Str :=
  match svc.get_portfolio with
  | .error e => .error e
  | .ok [] => .ok "Portfolio is empty.".data
  | .ok hs => .ok (formatPortfolio hs)

def plugin_analyze_stock (svc : Services) (t : Str) : Except Str Str :=
  (svc.analyze_stock t).map formatAnalysis

def plugin_should_sell (svc : Services) (t : Str) : Except Str Str :=
  (svc.should_sell t).map formatSell

def plugin_find_buy_opportunities (svc : Services) : Except Str Str :=
  svc.find_buy_opportunities.map formatBuyOpps

def plugin_generate_portfolio_report (svc : Services) : Except Str Str :=
  svc.generate_portfolio_report.map formatReport

/-- `_add_to_portfolio` (plugin.py 130-133); its "Added ..." confirmation
string is only logged by the orchestrator, never placed in the report, so
only the success/failure outcome is modelled. -/
def plugin_add_to_portfolio (svc : Services) (t : Str) (sh pr : ℚ) : Except Str Unit :=
  svc.add_to_portfolio t sh pr

/-! ## ReportOrchestrator: `execute_task_direct` (plugin.py 404-500) -/

/-- Stage 2 (lines 439-445): per-candidate `float` conversion and add, each
outcome caught and logged; no report output. -/
def addStage (svc : Services) (ms : List (List Str)) : List (Except Str Unit) :=
  ms.map fun m =>
    match decVal (m.getD 0 []), decVal (m.getD 3 []) with
    | some sh, some pr => plugin_add_to_portfolio svc (m.getD 2 []) sh pr
    | _, _ => .error "could not convert string to float".data

/-- The ticker group of each extracted candidate. -/
def tickersOf (ms : List (List Str)) : List Str := ms.map (fun m => m.getD 2 [])

/-- Stage 4 (lines 455-463): per-ticker analysis, failures skipped. -/
def analyzeStage (svc : Services) (ts : List Str) : Str :=
  concatAll (ts.map fun t =>
    match plugin_analyze_stock svc t with
    | .ok a => a ++ "\n\n".data
    | .error _ => [])

/-- Stage 5 (lines 466-473): per-ticker sell check, failures skipped. -/
def sellStage (svc : Services) (ts : List Str) : Str :=
  concatAll (ts.map fun t =>
    match plugin_should_sell svc t with
    | .ok srec => "### ".data ++ t ++ "\n".data ++ srec ++ "\n\n".data
    | .error _ => [])

/-- Stage 6 (lines 476-483): one batched scan, failure skips the stage,
header included only on success. -/
def buyStage (svc : Services) : Str :=
  match plugin_find_buy_opportunities svc with
  | .ok b => "## Buy Opportunities\n\n".data ++ b ++ "\n\n".data
  | .error _ => []

/-- Stage 7 (lines 486-492): one summary call, failure skips the stage,
header included only on success. -/
def summaryStage (svc : Services) : Str :=
  match plugin_generate_portfolio_report svc with
  | .ok s => "## Portfolio Summary\n\n".data ++ s
  | .error _ => []

/-- The `report_parts` fragments, in the fixed append order of the source. -/
def reportSegs (svc : Services) (now : Str) (portfolioInfo : Str) (ts : List Str) : List Str :=
  ["# Investment Portfolio Analysis Report\n".data,
   "*Generated on ".data ++ now ++ "*\n\n".data,
   "## Current Portfolio\n\n".data, portfolioInfo, "\n\n".data,
   "## Individual Stock Analysis\n\n".data, analyzeStage svc ts,
   "## Sell Recommendations\n\n".data, sellStage svc ts,
   buyStage svc, summaryStage svc]

/-- `execute_task_direct` (plugin.py 404-500).  Every stage except the
stage-3 portfolio fetch is individually guarded in the source, so the
fetch is the only call whose failure reaches the outer handler, which
re-raises `RuntimeError(f"Direct investment execution failed: {e}")`. -/
def execute_task_direct (svc : Services) (now : Str) (task : Str) : Except Str Str :=
  let ms := extractMatches task
  let _adds := addStage svc ms
  match plugin_get_portfolio svc with
  | .error e => .error ("Direct investment execution failed: ".data ++ e)
  | .ok info => .ok (concatAll (reportSegs svc now info (tickersOf ms)))

/-! ## TransportClient: `InvestmentMCPClient` (mcp_client.py) -/

structure ParamSpec where
  type : Str
  required : Bool
deriving DecidableEq

structure ToolDescriptor where
  name : Str
  description : Str
  parameters : List (Str × ParamSpec)
deriving DecidableEq

/-- The fixed descriptor list of `list_tools` for the non-sse branch
(mcp_client.py lines 86-125). -/
def stdioTools : List ToolDescriptor :=
  [{ name := "add_to_portfolio".data, description := "Add a stock to your portfolio".data,
     parameters := [("ticker".data, { type := "string".data, required := true }),
                    ("shares".data, { type := "number".data, required := true }),
                    ("purchase_price".data, { type := "number".data, required := false })] },
   { name := "get_portfolio".data, description := "Get current portfolio".data,
     parameters := [] },
   { name := "analyze_stock".data, description := "Analyze a stock".data,
     parameters := [("ticker".data, { type := "string".data, required := true })] },
   { name := "should_sell".data, description := "Check if you should sell a stock".data,
     parameters := [("ticker".data, { type := "string".data, required := true })] },
   { name := "find_buy_opportunities".data, description := "Find stocks to buy".data,
     parameters := [] },
   { name := "generate_portfolio_report".data, description := "Generate portfolio report".data,
     parameters := [] }]

/-- Client state: the configuration plus the optional session handle
(`_client`) and subprocess handle (`_process`). -/
structure MCPClient where
  host : Str
  port : Nat
  transport : Str
  command : Option Str
  timeout : ℚ
  client : Option Unit
  process : Option Unit
deriving DecidableEq

/-- `__init__` (mcp_client.py 17-42): both handles start as `None`. -/
def initClient (host : Str) (port : Nat) (transport : Str) (command : Option Str)
    (timeout : ℚ) : MCPClient :=
  { host, port, transport, command, timeout, client := none, process := none }

/-- The exceptions `InvestmentMCPClient` can raise on its own:
`ValueError` (mcp_client.py 54, 65), the `AttributeError` from invoking a
method on the `None` session handle (the failure an operation outside the
connected state hits, lines 81 and 139), and `NotImplementedError`
(line 147). -/
inductive MCPError where
  | valueErr : Str → MCPError
  | attrNone : MCPError
  | notImpl : Str → MCPError
deriving DecidableEq

/-- `connect` (mcp_client.py 44-65). -/
def clientConnect (c : MCPClient) : Except MCPError MCPClient :=
  if c.transport = "sse".data then .ok { c with client := some () }
  else if c.transport = "stdio".data then
    match c.command with
    | none => .error (.valueErr "Command required for stdio transport".data)
    | some cmd =>
      if cmd.isEmpty then .error (.valueErr "Command required for stdio transport".data)
      else .ok { c with process := some () }
  else .error (.valueErr ("Unsupported transport: ".data ++ c.transport))

/-- `disconnect` (mcp_client.py 67-76): closes and clears both handles;
never fails. -/
def clientDisconnect (c : MCPClient) : MCPClient :=
  { c with client := none, process := none }

/-- `call_tool` (mcp_client.py 127-147).  `net` is the HTTP oracle for the
`POST /call-tool` round trip of a live session; it is consulted only in
the sse branch with a non-`None` session handle. -/
def call_tool (net : Str → List (Str × Str) → Except MCPError Str)
    (c : MCPClient) (name : Str) (args : List (Str × Str)) : Except MCPError Str :=
  if c.transport = "sse".data then
    match c.client with
    | none => .error .attrNone
    | some _ => net name args
  else .error (.notImpl "stdio transport not yet implemented".data)

/-- `list_tools` (mcp_client.py 78-125).  `netList` is the HTTP oracle for
`GET /tools`; the non-sse branch returns the compiled-in list with no
round trip. -/
def list_tools (netList : Except MCPError (List ToolDescriptor)) (c : MCPClient) :
    Except MCPError (List ToolDescriptor) :=
  if c.transport = "sse".data then
    match c.client with
    | none => .error .attrNone
    | some _ => netList
  else .ok stdioTools

/-! ## Tool exposure: `get_tool_functions` (plugin.py 108-128) -/

/-- Tags standing for the bound plugin methods handed to the host agent. -/
inductive ToolFun where
  | addToPortfolio | getPortfolio | analyzeStock | shouldSell
  | findBuyOpportunities | generatePortfolioReport | formatPortfolioAsMarkdown
deriving DecidableEq

def get_tool_functions (use_mcp : Bool) : List (Str × ToolFun) :=
  if use_mcp then []
  else
    [("add_to_portfolio".data, .addToPortfolio),
     ("get_portfolio".data, .getPortfolio),
     ("analyze_stock".data, .analyzeStock),
     ("should_sell".data, .shouldSell),
     ("find_buy_opportunities".data, .findBuyOpportunities),
     ("generate_portfolio_report".data, .generatePortfolioReport),
     ("format_portfolio_as_markdown".data, .formatPortfolioAsMarkdown)]

/-! ## Helper lemmas -/

/-- Every fragment of a fragment list is an infix of the concatenation. -/
theorem infix_of_mem_concatAll {x : Str} : ∀ {L : List Str}, x ∈ L → x <:+: concatAll L := by
  intro L
  induction L with
  | nil => intro h; cases h
  | cons a t ih =>
    intro h
    rcases List.mem_cons.mp h with rfl | h
    · exact ⟨[], concatAll t, by simp [concatAll]⟩
    · obtain ⟨u, v, huv⟩ := ih h
      refine ⟨a ++ u, v, ?_⟩
      calc a ++ u ++ x ++ v = a ++ (u ++ x ++ v) := by simp [List.append_assoc]
        _ = a ++ concatAll t := by rw [huv]
        _ = concatAll (a :: t) := rfl

/-- An infix of a middle factor is an infix of the product. -/
theorem infix_of_infix_left {x y : Str} (z : Str) (h : x <:+: y) : x <:+: y ++ z := by
  obtain ⟨u, v, huv⟩ := h
  exact ⟨u, v ++ z, by simp [← huv]⟩

instance {ε α : Type _} [DecidableEq ε] [DecidableEq α] : DecidableEq (Except ε α) :=
  fun a b =>
    match a, b with
    | .error e, .error f => decidable_of_iff (e = f) (by simp)
    | .error _, .ok _ => isFalse (by simp)
    | .ok _, .error _ => isFalse (by simp)
    | .ok x, .ok y => decidable_of_iff (x = y) (by simp)

/-! ## C10: tool exposure by mode -/

/-- C10: the tool mapping is determined solely by the mode flag: in MCP
mode `get_tool_functions` returns the empty mapping, and in direct mode it
returns exactly the seven listed tools — one more than the six descriptors
of the compiled-in catalog. -/
theorem c10_tool_mapping_by_mode :
    get_tool_functions true = [] ∧
    (get_tool_functions false).map Prod.fst =
      ["add_to_portfolio".data, "get_portfolio".data, "analyze_stock".data,
       "should_sell".data, "find_buy_opportunities".data,
       "generate_portfolio_report".data, "format_portfolio_as_markdown".data] ∧
    (get_tool_functions false).length = stdioTools.length + 1 :=
  ⟨rfl, rfl, rfl⟩

/-! ## C9: LocalProcess transport -/

/-- C9: on the stdio transport, `call_tool` fails with
`NotImplementedError` for every operation name and argument mapping and
never consults the network oracle (the result is the same for every
oracle), while `list_tools` returns the fixed compiled-in descriptor list
with no round trip. -/
theorem c9_stdio_unimplemented (c : MCPClient) (h : c.transport = "stdio".data) :
    (∀ net name args, call_tool net c name args =
      .error (.notImpl "stdio transport not yet implemented".data)) ∧
    (∀ netList, list_tools netList c = .ok stdioTools) := by
  constructor
  · intro net name args
    simp only [call_tool, h]
    rw [if_neg (by decide)]
  · intro netList
    simp only [list_tools, h]
    rw [if_neg (by decide)]

theorem c9_witness :
    call_tool (fun _ _ => .error .attrNone)
      (initClient "localhost".data 8004 "stdio".data (some "cmd".data) 30)
      "analyze_stock".data [] =
      .error (.notImpl "stdio transport not yet implemented".data) ∧
    list_tools (.error .attrNone)
      (initClient "localhost".data 8004 "stdio".data (some "cmd".data) 30) =
      .ok stdioTools :=
  ⟨(c9_stdio_unimplemented _ rfl).1 _ _ _, (c9_stdio_unimplemented _ rfl).2 _⟩

/-! ## C2: Remote client state machine -/

/-- C2: for every Remote (sse) client configuration, `connect` then
`disconnect` leaves the client in a state where `call_tool` fails with the
not-connected failure (the `AttributeError` on the cleared `None` session
handle), and more generally `call_tool` and `list_tools` fail that way in
every sse-client state other than connected (session handle `none`). -/
theorem c2_not_connected (host : Str) (port : Nat) (command : Option Str) (timeout : ℚ)
    (net : Str → List (Str × Str) → Except MCPError Str)
    (netList : Except MCPError (List ToolDescriptor)) :
    (∀ c', clientConnect (initClient host port "sse".data command timeout) = .ok c' →
      ∀ name args, call_tool net (clientDisconnect c') name args = .error .attrNone) ∧
    (∀ c : MCPClient, c.transport = "sse".data → c.client = none →
      (∀ name args, call_tool net c name args = .error .attrNone) ∧
      list_tools netList c = .error .attrNone) := by
  constructor
  · intro c' hc name args
    have hred : clientConnect (initClient host port "sse".data command timeout) =
        .ok { initClient host port "sse".data command timeout with client := some () } := rfl
    rw [hred] at hc
    injection hc with h
    subst h
    rfl
  · intro c ht hc
    refine ⟨fun name args => ?_, ?_⟩
    · simp [call_tool, ht, hc]
    · simp [list_tools, ht, hc]

theorem c2_witness :
    call_tool (fun _ _ => .ok [])
      (clientDisconnect
        { host := "localhost".data, port := 8004, transport := "sse".data,
          command := none, timeout := 30, client := some (), process := none })
      "analyze_stock".data [] = .error .attrNone ∧
    list_tools (.ok stdioTools) (initClient "localhost".data 8004 "sse".data none 30) =
      .error .attrNone := by
  constructor
  · exact (c2_not_connected "localhost".data 8004 none 30 (fun _ _ => .ok [])
      (.ok stdioTools)).1
      { host := "localhost".data, port := 8004, transport := "sse".data,
        command := none, timeout := 30, client := some (), process := none } rfl _ _
  · exact ((c2_not_connected "localhost".data 8004 none 30 (fun _ _ => .ok [])
      (.ok stdioTools)).2 _ rfl rfl).2

/-! ## C8: guarded profit/loss percentage -/

/-- C8: the portfolio formatter's total profit/loss percentage is exactly
`0` when the summed purchase cost is `0` (the division is guarded), and
equals total P/L over total cost times 100 when the total cost is
positive. -/
theorem c8_guarded_pl_pct (hs : List Holding) :
    (portfolio_total_cost hs = 0 →
      total_pl_pct (portfolio_total_value hs - portfolio_total_cost hs)
        (portfolio_total_cost hs) = 0) ∧
    (0 < portfolio_total_cost hs →
      total_pl_pct (portfolio_total_value hs - portfolio_total_cost hs)
        (portfolio_total_cost hs) =
      (portfolio_total_value hs - portfolio_total_cost hs) / portfolio_total_cost hs * 100) := by
  constructor
  · intro h; simp [total_pl_pct, h]
  · intro h; simp [total_pl_pct, h]

/-- A holding bought at 1500 now worth 1800. -/
def wHoldingUp : Holding :=
  { ticker := "AAA".data, company_name := "Alpha".data, shares_repr := "10.0".data,
    purchase_price := 150, current_price := 180, current_value := 1800,
    profit_loss := 300, profit_loss_pct := 20, purchase_value := 1500 }

/-- A holding bought at 1500 now worth 1200. -/
def wHoldingDown : Holding :=
  { ticker := "BBB".data, company_name := "Beta".data, shares_repr := "10.0".data,
    purchase_price := 150, current_price := 120, current_value := 1200,
    profit_loss := -300, profit_loss_pct := -20, purchase_value := 1500 }

theorem c8_witness :
    0 < portfolio_total_cost [wHoldingUp, wHoldingDown] ∧
    total_pl_pct
      (portfolio_total_value [wHoldingUp, wHoldingDown] -
        portfolio_total_cost [wHoldingUp, wHoldingDown])
      (portfolio_total_cost [wHoldingUp, wHoldingDown]) = 0 := by
  have hpos : 0 < portfolio_total_cost [wHoldingUp, wHoldingDown] := by
    norm_num [portfolio_total_cost, wHoldingUp, wHoldingDown]
  have h2 := (c8_guarded_pl_pct [wHoldingUp, wHoldingDown]).2 hpos
  refine ⟨hpos, ?_⟩
  rw [h2]
  norm_num [portfolio_total_value, portfolio_total_cost, wHoldingUp, wHoldingDown]

/-! ## C4: first-match-wins pattern precedence -/

/-- C4: if the primary dual-currency pattern yields at least one match the
fallback single-currency pattern is never applied, and the fallback is
applied exactly when the primary yields zero matches. -/
theorem c4_pattern_precedence (task : Str) :
    (findall stock_pattern task ≠ [] →
      extractMatches task = findall stock_pattern task) ∧
    (findall stock_pattern task = [] →
      extractMatches task = findall stock_pattern_eur task) := by
  constructor
  · intro h
    simp [extractMatches, List.isEmpty_iff, h]
  · intro h
    simp [extractMatches, List.isEmpty_iff, h]

/-- A task the primary dual-currency pattern matches. -/
def wTaskDual : Str :=
  "23 Tesla (TSLA) shares @ ".data ++ euroSeq ++ "187.60 ($218.55)".data

theorem c4_witness :
    findall stock_pattern wTaskDual ≠ [] ∧
    extractMatches wTaskDual = findall stock_pattern wTaskDual :=
  ⟨by decide, (c4_pattern_precedence wTaskDual).1 (by decide)⟩

/-! ## C7: absent optional fields render as N/A -/

/-- C7: for every analysis result, each absent optional numeric field
(P/E, forward P/E, PEG, price/book, 50- and 200-day moving averages,
beta, analyst target price) makes the formatted fragment contain the
literal token `N/A` in place of a numeric value. -/
theorem c7_na_tokens (r : AnalysisResult) :
    (r.pe = none → "P/E Ratio: N/A".data <:+: formatAnalysis r) ∧
    (r.forward_pe = none → "Forward P/E: N/A".data <:+: formatAnalysis r) ∧
    (r.peg = none → "PEG Ratio: N/A".data <:+: formatAnalysis r) ∧
    (r.price_to_book = none → "Price/Book: N/A".data <:+: formatAnalysis r) ∧
    (r.moving_avg_50d = none → "50-Day MA: N/A".data <:+: formatAnalysis r) ∧
    (r.moving_avg_200d = none → "200-Day MA: N/A".data <:+: formatAnalysis r) ∧
    (r.beta = none → "Beta: N/A".data <:+: formatAnalysis r) ∧
    (r.target_price = none → "Target Price: N/A".data <:+: formatAnalysis r) := by
  refine ⟨fun h => ?_, fun h => ?_, fun h => ?_, fun h => ?_,
    fun h => ?_, fun h => ?_, fun h => ?_, fun h => ?_⟩
  · refine List.IsInfix.trans ?_ (infix_of_mem_concatAll
      (show ("  ".data ++ bullet ++ " P/E Ratio: ".data ++ optFmt2 r.pe ++ "\n".data) ∈
        analysisSegs r by simp [analysisSegs]))
    rw [h]; decide
  · refine List.IsInfix.trans ?_ (infix_of_mem_concatAll
      (show ("  ".data ++ bullet ++ " Forward P/E: ".data ++ optFmt2 r.forward_pe ++ "\n".data) ∈
        analysisSegs r by simp [analysisSegs]))
    rw [h]; decide
  · refine List.IsInfix.trans ?_ (infix_of_mem_concatAll
      (show ("  ".data ++ bullet ++ " PEG Ratio: ".data ++ optFmt2 r.peg ++ "\n".data) ∈
        analysisSegs r by simp [analysisSegs]))
    rw [h]; decide
  · refine List.IsInfix.trans ?_ (infix_of_mem_concatAll
      (show ("  ".data ++ bullet ++ " Price/Book: ".data ++ optFmt2 r.price_to_book ++ "\n".data) ∈
        analysisSegs r by simp [analysisSegs]))
    rw [h]; decide
  · refine List.IsInfix.trans ?_ (infix_of_mem_concatAll
      (show ("  ".data ++ bullet ++ " 50-Day MA: ".data ++ optDollarFmt2 r.moving_avg_50d ++ "\n".data) ∈
        analysisSegs r by simp [analysisSegs]))
    rw [h]; decide
  · refine List.IsInfix.trans ?_ (infix_of_mem_concatAll
      (show ("  ".data ++ bullet ++ " 200-Day MA: ".data ++ optDollarFmt2 r.moving_avg_200d ++ "\n".data) ∈
        analysisSegs r by simp [analysisSegs]))
    rw [h]; decide
  · refine List.IsInfix.trans ?_ (infix_of_mem_concatAll
      (show ("  ".data ++ bullet ++ " Beta: ".data ++ optFmt2 r.beta ++ "\n\n".data) ∈
        analysisSegs r by simp [analysisSegs]))
    rw [h]; decide
  · refine List.IsInfix.trans ?_ (infix_of_mem_concatAll
      (show ("  ".data ++ bullet ++ " Target Price: ".data ++ optDollarFmt2 r.target_price ++ "\n".data) ∈
        analysisSegs r by simp [analysisSegs]))
    rw [h]; decide

/-- An analysis result with every optional numeric field absent. -/
def wAnalysisAllNone : AnalysisResult :=
  { ticker := "XXXX".data, company_name := "Xample".data, sector := "Tech".data,
    industry := "Software".data, current_price := 10, price_52w_high := 20,
    price_52w_low := 5, change_1m_pct := 1, change_3m_pct := 2, market_cap := 1000,
    pe := none, forward_pe := none, peg := none, price_to_book := none,
    dividend_yield := 0, moving_avg_50d := none, moving_avg_200d := none,
    volatility := 3, beta := none, analyst_recommendation := "buy".data,
    target_price := none }

theorem c7_witness :
    "P/E Ratio: N/A".data <:+: formatAnalysis wAnalysisAllNone ∧
    "Forward P/E: N/A".data <:+: formatAnalysis wAnalysisAllNone ∧
    "PEG Ratio: N/A".data <:+: formatAnalysis wAnalysisAllNone ∧
    "Price/Book: N/A".data <:+: formatAnalysis wAnalysisAllNone ∧
    "50-Day MA: N/A".data <:+: formatAnalysis wAnalysisAllNone ∧
    "200-Day MA: N/A".data <:+: formatAnalysis wAnalysisAllNone ∧
    "Beta: N/A".data <:+: formatAnalysis wAnalysisAllNone ∧
    "Target Price: N/A".data <:+: formatAnalysis wAnalysisAllNone := by
  obtain ⟨h1, h2, h3, h4, h5, h6, h7, h8⟩ := c7_na_tokens wAnalysisAllNone
  exact ⟨h1 rfl, h2 rfl, h3 rfl, h4 rfl, h5 rfl, h6 rfl, h7 rfl, h8 rfl⟩

/-! ## C3: invariants of the extracted capture groups -/

theorem findSome?_eq_some_ex {α β : Type _} {f : α → Option β} :
    ∀ {l : List α} {b : β}, l.findSome? f = some b → ∃ a ∈ l, f a = some b := by
  intro l
  induction l with
  | nil => intro b h; simp [List.findSome?] at h
  | cons a t ih =>
    intro b h
    rw [List.findSome?] at h
    cases hfa : f a with
    | some c =>
      rw [hfa] at h
      exact ⟨a, List.mem_cons_self a t, hfa.trans h⟩
    | none =>
      rw [hfa] at h
      obtain ⟨a', ha', hfa'⟩ := ih h
      exact ⟨a', List.mem_cons_of_mem a ha', hfa'⟩

theorem mem_tryLens {n k : Nat} (h : k ∈ tryLens n) : 1 ≤ k ∧ k ≤ n := by
  simp only [tryLens, List.mem_map, List.mem_range] at h
  obtain ⟨i, hi, rfl⟩ := h
  omega

theorem take_all_of_le_takeWhile (p : Char → Bool) :
    ∀ (s : Str) (k : Nat), k ≤ (s.takeWhile p).length → (s.take k).all p := by
  intro s
  induction s with
  | nil => intro k h; simp at h; simp [h]
  | cons c t ih =>
    intro k h
    by_cases hp : p c
    · simp only [List.takeWhile, hp, List.length_cons] at h
      cases k with
      | zero => simp
      | succ k' =>
        simp only [List.take, List.all_cons, hp, Bool.true_and]
        exact ih k' (by omega)
    · simp only [List.takeWhile, hp, List.length_nil] at h
      have : k = 0 := by omega
      simp [this]

theorem take_ne_nil_of_takeWhile (p : Char → Bool) (s : Str) (k : Nat)
    (h1 : 1 ≤ k) (h2 : k ≤ (s.takeWhile p).length) : s.take k ≠ [] := by
  cases s with
  | nil => simp at h2; omega
  | cons c t =>
    cases k with
    | zero => omega
    | succ k' => simp

/-- The classes of the captured groups of a pattern, in order. -/
def capClasses : List Item → List (Char → Bool)
  | [] => []
  | Item.many1 p true :: rest => p :: capClasses rest
  | Item.many1 _ false :: rest => capClasses rest
  | Item.lit _ :: rest => capClasses rest
  | Item.optLit _ :: rest => capClasses rest

/-- Every successful anchored match produces exactly one non-empty capture
per captured class, all of whose characters satisfy that class. -/
theorem matchItems_caps :
    ∀ (fuel : Nat) (items : List Item) (s r : Str) (caps : List Str),
      matchItems fuel items s = some (r, caps) →
      List.Forall₂ (fun p (g : Str) => g ≠ [] ∧ g.all p) (capClasses items) caps := by
  intro fuel
  induction fuel with
  | zero => intro items s r caps h; simp [matchItems] at h
  | succ fuel ih =>
    intro items s r caps h
    match items with
    | [] =>
      simp only [matchItems, Option.some.injEq, Prod.mk.injEq] at h
      rw [← h.2]
      exact List.Forall₂.nil
    | Item.lit c :: rest =>
      cases s with
      | nil => simp [matchItems] at h
      | cons x t =>
        simp only [matchItems] at h
        by_cases hx : x = c
        · rw [if_pos hx] at h; exact ih rest t r caps h
        · rw [if_neg hx] at h; simp at h
    | Item.optLit c :: rest =>
      cases s with
      | nil => exact ih rest [] r caps h
      | cons x t =>
        simp only [matchItems] at h
        by_cases hx : x = c
        · rw [if_pos hx] at h
          cases hm : matchItems fuel rest t with
          | some res =>
            rw [hm] at h
            obtain rfl : res = (r, caps) := by
              cases res; simpa using h
            exact ih rest t r caps hm
          | none =>
            rw [hm] at h
            exact ih rest (x :: t) r caps h
        · rw [if_neg hx] at h
          exact ih rest (x :: t) r caps h
    | Item.many1 p cap :: rest =>
      simp only [matchItems] at h
      obtain ⟨k, hk_mem, hk⟩ := findSome?_eq_some_ex h
      obtain ⟨hk1, hk2⟩ := mem_tryLens hk_mem
      cases hm : matchItems fuel rest (s.drop k) with
      | none => rw [hm] at hk; simp at hk
      | some rc =>
        obtain ⟨r', caps'⟩ := rc
        rw [hm] at hk
        simp only [Option.some.injEq, Prod.mk.injEq] at hk
        have hcaps' := ih rest (s.drop k) r' caps' hm
        cases cap with
        | false =>
          rw [← hk.2]
          exact hcaps'
        | true =>
          rw [← hk.2]
          exact List.Forall₂.cons
            ⟨take_ne_nil_of_takeWhile p s k hk1 hk2,
             take_all_of_le_takeWhile p s k hk2⟩ hcaps'

/-- Every tuple `findall` returns comes from some successful anchored
match. -/
theorem findallAux_mem :
    ∀ (fuel : Nat) (items : List Item) (s : Str) (caps : List Str),
      caps ∈ findallAux fuel items s →
      ∃ s' r, runMatch items s' = some (r, caps) := by
  intro fuel
  induction fuel with
  | zero => intro items s caps h; simp [findallAux] at h
  | succ fuel ih =>
    intro items s caps h
    simp only [findallAux] at h
    cases hm : runMatch items s with
    | some rc =>
      obtain ⟨r', caps'⟩ := rc
      rw [hm] at h
      rcases List.mem_cons.mp h with rfl | h'
      · exact ⟨s, r', hm⟩
      · by_cases hlt : r'.length < s.length
        · rw [if_pos hlt] at h'; exact ih items r' caps h'
        · rw [if_neg hlt] at h'; exact ih items (s.drop 1) caps h'
    | none =>
      rw [hm] at h
      cases s with
      | nil => simp at h
      | cons x t => exact ih items t caps h

/-- C3 (amended): every candidate the parsing stage extracts has the form
`[shares, company, ticker, price]` where the ticker is a non-empty
all-uppercase string, the share field is a non-empty digit string (a
non-negative integer numeral — possibly `"0"`), and the price field is a
non-empty string of digits and dots (whose value may be zero, or may even
fail float conversion); the parse performs no value validation. -/
theorem c3_parse_invariants (task : Str) (rec : List Str)
    (h : rec ∈ extractMatches task) :
    ∃ sh co ti pr : Str, rec = [sh, co, ti, pr] ∧
      sh ≠ [] ∧ sh.all Char.isDigit ∧
      co ≠ [] ∧ co.all isAlphaSpace ∧
      ti ≠ [] ∧ ti.all isUpperAZ ∧
      pr ≠ [] ∧ pr.all isDigitDot := by
  have hcap : List.Forall₂ (fun p (g : Str) => g ≠ [] ∧ g.all p)
      [Char.isDigit, isAlphaSpace, isUpperAZ, isDigitDot] rec := by
    unfold extractMatches at h
    by_cases he : (findall stock_pattern task).isEmpty
    · rw [if_pos he] at h
      obtain ⟨s', r, hm⟩ := findallAux_mem _ _ _ _ h
      have := matchItems_caps _ _ _ _ _ hm
      exact this
    · rw [if_neg he] at h
      obtain ⟨s', r, hm⟩ := findallAux_mem _ _ _ _ h
      have := matchItems_caps _ _ _ _ _ hm
      exact this
  cases hcap with
  | cons h1 hrest1 =>
    cases hrest1 with
    | cons h2 hrest2 =>
      cases hrest2 with
      | cons h3 hrest3 =>
        cases hrest3 with
        | cons h4 hrest4 =>
          cases hrest4
          exact ⟨_, _, _, _, rfl, h1.1, h1.2, h2.1, h2.2, h3.1, h3.2, h4.1, h4.2⟩

/-- A task whose only parsed candidate carries a zero share count and a
zero price, both admitted by the parse. -/
def c3Task : Str := "0 Tesla (TSLA) shares @ ".data ++ euroSeq ++ "187.60 ($0.0)".data

/-- C3 counterexample: the parse admits a record with share field `"0"`
(integer value 0, not strictly positive) and price field `"0.0"`
(float value 0, not strictly positive) instead of dropping it. -/
theorem c3_counterexample :
    extractMatches c3Task = [[['0'], "Tesla".data, "TSLA".data, "0.0".data]] ∧
    digitsToNat ['0'] = 0 ∧ ¬ 0 < digitsToNat ['0'] ∧
    decVal "0.0".data = some 0 := by
  refine ⟨by decide, rfl, by decide, ?_⟩
  rw [show decVal "0.0".data = some ((0 : ℚ) + (0 : ℚ) / (10 : ℚ) ^ 1) from rfl]
  norm_num

theorem c3_witness :
    ∃ sh co ti pr : Str,
      ([['2', '3'], "Tesla".data, "TSLA".data, "218.55".data] : List Str) = [sh, co, ti, pr] ∧
      sh ≠ [] ∧ sh.all Char.isDigit ∧
      co ≠ [] ∧ co.all isAlphaSpace ∧
      ti ≠ [] ∧ ti.all isUpperAZ ∧
      pr ≠ [] ∧ pr.all isDigitDot :=
  c3_parse_invariants wTaskDual [['2', '3'], "Tesla".data, "TSLA".data, "218.55".data]
    (by decide)

/-! ## C1: fatality policy of the orchestrator -/

/-- C1 (amended): failures in the guarded stages (per-candidate add,
per-ticker analysis, per-ticker sell check, the buy-opportunity scan and
the summary call) are logged and skipped and a best-effort report is still
returned; but a failure of the stage-3 portfolio-snapshot fetch — the one
unguarded call — is fatal exactly like a pre-stage-1 failure and is
re-raised wrapped as "Direct investment execution failed: ...". -/
theorem c1_fatality_policy (svc : Services) (now task : Str) :
    (∀ p, svc.get_portfolio = .ok p →
      ∃ rep, execute_task_direct svc now task = .ok rep) ∧
    (∀ e, svc.get_portfolio = .error e →
      execute_task_direct svc now task =
        .error ("Direct investment execution failed: ".data ++ e)) := by
  constructor
  · intro p hp
    cases p with
    | nil =>
      refine ⟨concatAll (reportSegs svc now "Portfolio is empty.".data
        (tickersOf (extractMatches task))), ?_⟩
      simp only [execute_task_direct, plugin_get_portfolio, hp]
    | cons h t =>
      refine ⟨concatAll (reportSegs svc now (formatPortfolio (h :: t))
        (tickersOf (extractMatches task))), ?_⟩
      simp only [execute_task_direct, plugin_get_portfolio, hp]
  · intro e he
    simp only [execute_task_direct, plugin_get_portfolio, he]

/-- A service whose portfolio fetch raises while every other operation
succeeds or is irrelevant. -/
def svcGetPortfolioErr : Services :=
  { add_to_portfolio := fun _ _ _ => .ok (),
    get_portfolio := .error "boom".data,
    analyze_stock := fun _ => .error "skip".data,
    should_sell := fun _ => .error "skip".data,
    find_buy_opportunities := .error "skip".data,
    generate_portfolio_report := .error "skip".data }

/-- C1 counterexample: when only the stage-3 portfolio fetch fails, the
orchestrator does not skip the failure and return a best-effort report —
it raises the wrapped execution error. -/
theorem c1_counterexample :
    execute_task_direct svcGetPortfolioErr "2025-01-01 00:00:00".data wTaskDual =
      .error "Direct investment execution failed: boom".data := by decide

/-- A service where every stage except the portfolio fetch fails. -/
def svcOnlyPortfolio : Services :=
  { add_to_portfolio := fun _ _ _ => .error "add failed".data,
    get_portfolio := .ok [],
    analyze_stock := fun _ => .error "analysis failed".data,
    should_sell := fun _ => .error "sell failed".data,
    find_buy_opportunities := .error "buy failed".data,
    generate_portfolio_report := .error "report failed".data }

theorem c1_witness :
    ∃ rep, execute_task_direct svcOnlyPortfolio "2025-01-01 00:00:00".data wTaskDual =
      .ok rep :=
  (c1_fatality_policy svcOnlyPortfolio "2025-01-01 00:00:00".data wTaskDual).1 [] rfl

/-! ## C6: zero parseable holdings, empty portfolio -/

/-- C6 (amended): for every task with zero parseable holding mentions,
provided the stage-3 portfolio fetch succeeds returning an empty
portfolio, the orchestrator does not throw; the report contains the
literal "Portfolio is empty." line and the snapshot section, there are no
per-ticker analysis or sell fragments, and the summary section appears
whenever the (guarded) summary call succeeds. -/
theorem c6_empty_task_report (svc : Services) (now task : Str)
    (h0 : extractMatches task = []) (hp : svc.get_portfolio = .ok []) :
    ∃ rep, execute_task_direct svc now task = .ok rep ∧
      "Portfolio is empty.".data <:+: rep ∧
      "## Current Portfolio\n\n".data <:+: rep ∧
      analyzeStage svc (tickersOf (extractMatches task)) = [] ∧
      sellStage svc (tickersOf (extractMatches task)) = [] ∧
      (∀ r, svc.generate_portfolio_report = .ok r →
        "## Portfolio Summary\n\n".data <:+: rep) := by
  have hpg : plugin_get_portfolio svc = .ok "Portfolio is empty.".data := by
    simp [plugin_get_portfolio, hp]
  refine ⟨concatAll (reportSegs svc now "Portfolio is empty.".data
      (tickersOf (extractMatches task))), ?_, ?_, ?_, ?_, ?_, ?_⟩
  · simp only [execute_task_direct, hpg]
  · exact infix_of_mem_concatAll (by simp [reportSegs])
  · exact infix_of_mem_concatAll (by simp [reportSegs])
  · simp [h0, tickersOf, analyzeStage, concatAll]
  · simp [h0, tickersOf, sellStage, concatAll]
  · intro r hr
    refine List.IsInfix.trans ?_ (infix_of_mem_concatAll
      (show summaryStage svc ∈
        reportSegs svc now "Portfolio is empty.".data (tickersOf (extractMatches task)) by
          simp [reportSegs]))
    simp only [summaryStage, plugin_generate_portfolio_report, hr, Except.map]
    exact ⟨[], formatReport r, rfl⟩

/-- A service with an empty portfolio whose summary stage fails. -/
def svcEmptyNoSummary : Services :=
  { add_to_portfolio := fun _ _ _ => .ok (),
    get_portfolio := .ok [],
    analyze_stock := fun _ => .error "skip".data,
    should_sell := fun _ => .error "skip".data,
    find_buy_opportunities := .error "skip".data,
    generate_portfolio_report := .error "skip".data }

set_option maxRecDepth 16384 in
/-- C6 counterexample: on a task with zero parseable holdings the
orchestrator does throw when the portfolio fetch fails, and when the
guarded summary stage fails the returned report does not contain the
summary section — so neither "never throws" nor the unconditional summary
section hold as stated. -/
theorem c6_counterexample :
    execute_task_direct svcGetPortfolioErr "now".data "analyze my holdings".data =
      .error "Direct investment execution failed: boom".data ∧
    execute_task_direct svcEmptyNoSummary "now".data "analyze my holdings".data =
      .ok ("# Investment Portfolio Analysis Report\n*Generated on now*\n\n## Current Portfolio\n\nPortfolio is empty.\n\n## Individual Stock Analysis\n\n## Sell Recommendations\n\n".data) ∧
    ¬ "## Portfolio Summary".data <:+:
      "# Investment Portfolio Analysis Report\n*Generated on now*\n\n## Current Portfolio\n\nPortfolio is empty.\n\n## Individual Stock Analysis\n\n## Sell Recommendations\n\n".data :=
  ⟨by decide, by decide, by decide⟩

theorem c6_witness :
    ∃ rep, execute_task_direct svcEmptyNoSummary "now".data "no holdings here".data = .ok rep ∧
      "Portfolio is empty.".data <:+: rep ∧
      "## Current Portfolio\n\n".data <:+: rep ∧
      analyzeStage svcEmptyNoSummary
        (tickersOf (extractMatches "no holdings here".data)) = [] ∧
      sellStage svcEmptyNoSummary
        (tickersOf (extractMatches "no holdings here".data)) = [] ∧
      (∀ r, svcEmptyNoSummary.generate_portfolio_report = .ok r →
        "## Portfolio Summary\n\n".data <:+: rep) :=
  c6_empty_task_report svcEmptyNoSummary "now".data "no holdings here".data (by decide) rfl

/-! ## C5: per-ticker isolation of the analysis stage -/

/-- C5: if the analysis of exactly one of three extracted tickers fails
(and the portfolio fetch succeeds), the report is still returned with the
other two tickers' analysis fragments present; the analysis stage output
is exactly the two successful fragments in order, omitting the failed
ticker's section, and no top-level error is raised. -/
theorem c5_analysis_isolation (svc : Services) (now task : Str)
    (m1 m2 m3 : List Str) (hs : List Holding) (r1 r3 : AnalysisResult) (e2 : Str)
    (hm : extractMatches task = [m1, m2, m3])
    (hp : svc.get_portfolio = .ok hs)
    (h1 : svc.analyze_stock (m1.getD 2 []) = .ok r1)
    (h2 : svc.analyze_stock (m2.getD 2 []) = .error e2)
    (h3 : svc.analyze_stock (m3.getD 2 []) = .ok r3) :
    ∃ rep, execute_task_direct svc now task = .ok rep ∧
      formatAnalysis r1 <:+: rep ∧
      formatAnalysis r3 <:+: rep ∧
      analyzeStage svc (tickersOf (extractMatches task)) =
        formatAnalysis r1 ++ "\n\n".data ++ (formatAnalysis r3 ++ "\n\n".data) := by
  have hstage : analyzeStage svc (tickersOf (extractMatches task)) =
      formatAnalysis r1 ++ "\n\n".data ++ (formatAnalysis r3 ++ "\n\n".data) := by
    have ht : tickersOf [m1, m2, m3] = [m1.getD 2 [], m2.getD 2 [], m3.getD 2 []] := rfl
    rw [hm, ht]
    simp only [analyzeStage, List.map_cons, List.map_nil, plugin_analyze_stock,
      h1, h2, h3, Except.map, concatAll, List.foldr, List.append_nil,
      List.nil_append, List.append_assoc]
  have hpg : ∃ info, plugin_get_portfolio svc = .ok info := by
    cases hs with
    | nil =>
      exact ⟨"Portfolio is empty.".data, by simp [plugin_get_portfolio, hp]⟩
    | cons a t =>
      exact ⟨formatPortfolio (a :: t), by simp [plugin_get_portfolio, hp]⟩
  obtain ⟨info, hpg⟩ := hpg
  refine ⟨concatAll (reportSegs svc now info (tickersOf (extractMatches task))),
    ?_, ?_, ?_, hstage⟩
  · simp only [execute_task_direct, hpg]
  · refine List.IsInfix.trans ?_ (infix_of_mem_concatAll
      (show analyzeStage svc (tickersOf (extractMatches task)) ∈
        reportSegs svc now info (tickersOf (extractMatches task)) by simp [reportSegs]))
    rw [hstage]
    exact ⟨[], "\n\n".data ++ (formatAnalysis r3 ++ "\n\n".data), by
      simp [List.append_assoc]⟩
  · refine List.IsInfix.trans ?_ (infix_of_mem_concatAll
      (show analyzeStage svc (tickersOf (extractMatches task)) ∈
        reportSegs svc now info (tickersOf (extractMatches task)) by simp [reportSegs]))
    rw [hstage]
    exact ⟨formatAnalysis r1 ++ "\n\n".data, "\n\n".data, by simp [List.append_assoc]⟩

/-- A second all-optional-absent analysis result, for ticker CCC. -/
def wAnalysisGamma : AnalysisResult := { wAnalysisAllNone with ticker := "CCC".data }

/-- Analysis succeeds for AAA and CCC and fails for every other ticker;
the portfolio is empty and the remaining stages fail (and are skipped). -/
def svcC5 : Services :=
  { add_to_portfolio := fun _ _ _ => .ok (),
    get_portfolio := .ok [],
    analyze_stock := fun t =>
      if t = "AAA".data then .ok wAnalysisAllNone
      else if t = "CCC".data then .ok wAnalysisGamma
      else .error "analysis failed".data,
    should_sell := fun _ => .error "skip".data,
    find_buy_opportunities := .error "skip".data,
    generate_portfolio_report := .error "skip".data }

/-- A task parsing to the three tickers AAA, BBB, CCC. -/
def wTask3 : Str :=
  "1 Alpha (AAA) shares @ ".data ++ euroSeq ++ "1.0 ($2.0), 2 Beta (BBB) shares @ ".data ++
  euroSeq ++ "1.0 ($3.0), 3 Gamma (CCC) shares @ ".data ++ euroSeq ++ "1.0 ($4.0)".data

theorem c5_witness :
    ∃ rep, execute_task_direct svcC5 "now".data wTask3 = .ok rep ∧
      formatAnalysis wAnalysisAllNone <:+: rep ∧
      formatAnalysis wAnalysisGamma <:+: rep ∧
      analyzeStage svcC5 (tickersOf (extractMatches wTask3)) =
        formatAnalysis wAnalysisAllNone ++ "\n\n".data ++
          (formatAnalysis wAnalysisGamma ++ "\n\n".data) :=
  c5_analysis_isolation svcC5 "now".data wTask3
    [['1'], "Alpha".data, "AAA".data, "2.0".data]
    [['2'], "Beta".data, "BBB".data, "3.0".data]
    [['3'], "Gamma".data, "CCC".data, "4.0".data]
    [] wAnalysisAllNone wAnalysisGamma "analysis failed".data
    (by decide) rfl rfl rfl rfl
